import Mathlib

set_option autoImplicit false

/-!
Verification development for the uberscrape extraction pipeline
(`src/uberscrape/core/scraper.py`, `src/uberscrape/utils/schema.py`).

The Python code is shallowly embedded: JSON values produced by `json.loads`
are the inductive `JValue`; Python exceptions escaping a call are the
`PyErr` side of an `Except`; external library calls (the network, the
Anthropic model client, `json.loads`, `repair_json`, `html2text`) are
parameters of the embedded functions, so that every theorem quantifies over
every outcome those libraries can produce.  Control flow is translated
line by line from the source.
-/

namespace Uberscrape

/-- JSON values as returned by the Python `json` module.  Numbers are
modelled as integers: no verified property depends on float semantics. -/
inductive JValue : Type where
  | null : JValue
  | bool : Bool → JValue
  | num : Int → JValue
  | str : String → JValue
  | arr : List JValue → JValue
  | obj : List (String × JValue) → JValue
  deriving Repr

/-- Python exceptions that the scraper code can raise or observe.
`msg` of each carries the text `str(e)` would render (for
`httpStatusError` only the status code is modelled, the exact httpx
message text being library-internal). -/
inductive PyErr : Type where
  | valueError (msg : String)
  | typeError (msg : String)
  | jsonDecodeError (msg : String)
  | httpStatusError (status : Nat)
  | modelError (msg : String)
  deriving DecidableEq, Repr

/-- Python `str(e)` for an embedded exception. -/
def PyErr.msg : PyErr → String
  | .valueError m => m
  | .typeError m => m
  | .jsonDecodeError m => m
  | .httpStatusError s => "HTTP status error: " ++ toString s
  | .modelError m => m

/-- First-match lookup in an association list (Python `dict` access;
a real `dict` has unique keys, first-match agrees with it there). -/
def lookupFirst : List (String × JValue) → String → Option JValue
  | [], _ => none
  | (k', v) :: rest, k => if k' = k then some v else lookupFirst rest k

/-- Field access on a JSON object. -/
def JValue.getField : JValue → String → Option JValue
  | .obj l, k => lookupFirst l k
  | _, _ => none

/-- Python `d[k] = v` on a dict: replace the value of an existing key in
place, else append the new pair (insertion-order semantics). -/
def insertKey : List (String × JValue) → String → JValue → List (String × JValue)
  | [], k, v => [(k, v)]
  | (k', v') :: rest, k, v =>
    if k' = k then (k', v) :: rest else (k', v') :: insertKey rest k v

/-- Message of the `TypeError` Python raises when item assignment is
attempted on a non-dict value (CPython wording per type). -/
def setItemErrMsg : JValue → String
  | .arr _ => "list indices must be integers or slices, not str"
  | .str _ => "\x27str\x27 object does not support item assignment"
  | .num _ => "\x27int\x27 object does not support item assignment"
  | .bool _ => "\x27bool\x27 object does not support item assignment"
  | .null => "\x27NoneType\x27 object does not support item assignment"
  | .obj _ => ""

/-- Python `v[k] = x` as an operation that may raise: succeeds exactly on
dicts (scraper.py lines 122-123 rely on this). -/
def setItem (v : JValue) (k : String) (x : JValue) : Except PyErr JValue :=
  match v with
  | .obj fields => .ok (.obj (insertKey fields k x))
  | other => .error (.typeError (setItemErrMsg other))

/-- Hard length cap applied to the reduced markdown (scraper.py line 115). -/
def contextCap : Nat := 50000

/-- Fixed truncation marker (scraper.py line 116). -/
def truncationMarker : String := "\n\n[... content truncated ...]"

/-- Lines 114-116 of scraper.py: trim the markdown to `contextCap`
characters, appending the marker when content was dropped. -/
def truncateContent (markdown : String) : String :=
  if markdown.length > contextCap then markdown.take contextCap ++ truncationMarker
  else markdown

/-- Outcome of a `json.loads` call: the parsed value, or the message of
the `json.JSONDecodeError` it raised. -/
abbrev JsonLoads := String → Except String JValue

/-- Outcome of a `repair_json` call: the repaired text, or `none` when the
call raised (any exception: the caller catches with a bare `except`). -/
abbrev RepairJson := String → Option String

/-- Characters of the opening fence matched by the regex
`(three backticks)json\n(.*?)\n(three backticks)` in scraper.py line 225. -/
def fenceOpen : List Char := "```json\n".data

/-- Characters of the closing fence of the same regex. -/
def fenceClose : List Char := "\n```".data

/-- Shortest prefix of `l` that is followed by the closing fence
(the lazy `(.*?)` of the regex), if any. -/
def takeUntilClose : List Char → Option (List Char)
  | [] => none
  | c :: rest =>
    if fenceClose.isPrefixOf (c :: rest) then some []
    else (takeUntilClose rest).map (fun l => c :: l)

/-- Leftmost-match scan of `re.search`: at each position try to match the
opening fence followed (lazily) by the closing fence. -/
def scanFenced : List Char → Option (List Char)
  | [] => none
  | c :: rest =>
    if fenceOpen.isPrefixOf (c :: rest) then
      match takeUntilClose ((c :: rest).drop fenceOpen.length) with
      | some content => some content
      | none => scanFenced rest
    else scanFenced rest

/-- Group 1 of `re.search` with the fenced-JSON pattern of scraper.py
line 225 (`re.DOTALL`, lazy body). -/
def findFencedJson (s : String) : Option String :=
  (scanFenced s.data).map String.mk

/-- Recovery stages of the response parser, in the order the code
attempts them (scraper.py lines 214-231). -/
inductive Stage : Type where
  | direct : Stage
  | repair : Stage
  | fenced : Stage
  deriving DecidableEq, Repr

/-- Stage 3 of the recovery parser (scraper.py lines 223-230): search for
a fenced JSON block; if found, `json.loads` its contents - a failure there
propagates as the decode error itself; if no block is found, raise the
`ValueError` carrying the first 200 characters of the original text. -/
def stage3 (jl : JsonLoads) (raw : String) : Except PyErr JValue :=
  match findFencedJson raw with
  | some block =>
    match jl block with
    | .ok d => .ok d
    | .error m => .error (.jsonDecodeError m)
  | none => .error (.valueError ("Could not parse LLM response as JSON: " ++ raw.take 200))

/-- Response recovery parser of scraper.py lines 214-231, instrumented
with the list of stages actually attempted: direct `json.loads`, then
`repair_json` followed by `json.loads`, then the fenced-block stage. -/
def parseResponseT (jl : JsonLoads) (rj : RepairJson) (raw : String) :
    Except PyErr JValue × List Stage :=
  match jl raw with
  | .ok d => (.ok d, [.direct])
  | .error _ =>
    match rj raw with
    | some repaired =>
      match jl repaired with
      | .ok d => (.ok d, [.direct, .repair])
      | .error _ => (stage3 jl raw, [.direct, .repair, .fenced])
    | none => (stage3 jl raw, [.direct, .repair, .fenced])

/-- Value component of the recovery parser (what the Python code returns
or raises). -/
def parseResponse (jl : JsonLoads) (rj : RepairJson) (raw : String) :
    Except PyErr JValue :=
  (parseResponseT jl rj raw).1

/-- Pretty JSON string escaping for the prompt example values
(`json.dumps`); the common escapes suffice for the verified properties,
which never inspect the prompt text. -/
def jsonEscapeChar (c : Char) : String :=
  if c = '"' then "\\\""
  else if c = '\\' then "\\\\"
  else if c = '\n' then "\\n"
  else if c = '\t' then "\\t"
  else if c = '\r' then "\\r"
  else String.singleton c

/-- Escape every character of a string for JSON output. -/
def jsonEscape (s : String) : String :=
  String.join (s.data.map jsonEscapeChar)

/-- One `"key": "value"` line of `json.dumps(..., indent=2)` applied to a
string-valued object. -/
def dumpsStrPair (p : String × String) : String :=
  "  \"" ++ jsonEscape p.1 ++ "\": \"" ++ jsonEscape p.2 ++ "\""

/-- Python `json.dumps(d, indent=2)` for a dict with string values. -/
def jsonDumpsStrObj (ex : List (String × String)) : String :=
  match ex with
  | [] => "\x7b\x7d"
  | _ => "\x7b\n" ++ String.intercalate ",\n" (ex.map dumpsStrPair) ++ "\n\x7d"

/-- Line 250-252 of scraper.py: render the schema into the example shape
`field : <type>` shown to the model. -/
def schemaExample (schema : List (String × String)) : List (String × String) :=
  schema.map (fun p => (p.1, "<" ++ p.2 ++ ">"))

/-- WebScraper._build_extraction_prompt (scraper.py lines 234-272). -/
def buildExtractionPrompt (schema : List (String × String)) (markdown : String) : String :=
  "Extract structured data from this webpage markdown.\n\n" ++
  "Return ONLY valid JSON with this exact structure (no markdown code blocks, no explanation):\n" ++
  jsonDumpsStrObj (schemaExample schema) ++
  "\n\nExtraction rules:\n" ++
  "- All numbers must be actual numbers (not strings)\n" ++
  "- Remove currency symbols ($, €, etc.) from numbers\n" ++
  "- Remove commas from numbers (1,500 → 1500)\n" ++
  "- Dates should be ISO format (YYYY-MM-DD) if possible\n" ++
  "- If a field is not visible on the page, use null\n" ++
  "- Phone numbers: keep as strings in original format\n" ++
  "- Arrays: extract all matching items found\n" ++
  "- Be precise - only extract what\x27s explicitly shown\n\n" ++
  "Webpage content:\n" ++ markdown ++ "\n\nExtract the data now:"

/-- Outcomes of the external collaborators of one `_extract_single` run:
`fetch` is the result of `self._fetch(url)` (ok markup or the exception it
raised), `h2t` is the pure `html2text` conversion, `llm` maps a prompt to
the first text block of the model reply (ok) or the exception the API call
raised, and `jsonLoads` / `repairJson` are as in the parser. -/
structure ScrapeEnv : Type where
  fetch : String → Except PyErr String
  h2t : String → String
  llm : String → Except PyErr String
  jsonLoads : JsonLoads
  repairJson : RepairJson

/-- Body of the `try` block of WebScraper._extract_single (scraper.py
lines 107-125): fetch, reduce to markdown, truncate, extract with the
model, then attach the `url` and `source` metadata via dict assignment. -/
def runPipeline (env : ScrapeEnv) (url : String) (schema : List (String × String)) :
    Except PyErr JValue :=
  match env.fetch url with
  | .error e => .error e
  | .ok html =>
    match env.llm (buildExtractionPrompt schema (truncateContent (env.h2t html))) with
    | .error e => .error e
    | .ok raw =>
      match parseResponse env.jsonLoads env.repairJson raw with
      | .error e => .error e
      | .ok data =>
        match setItem data "url" (.str url) with
        | .error e => .error e
        | .ok d1 => setItem d1 "source" (.str "uberscrape")

/-- Failure outcome dict built by the `except` arms of scraper.py
(lines 128-131 and 77 and 88). -/
def errorDict (url : String) (e : PyErr) : JValue :=
  .obj [("url", .str url), ("error", .str e.msg), ("parse_error", .bool true)]

/-- WebScraper._extract_single (scraper.py lines 91-132): run the pipeline
and convert any exception into the failure dict at the single-URL
boundary. -/
def extractSingle (env : ScrapeEnv) (url : String) (schema : List (String × String)) : JValue :=
  match runPipeline env url schema with
  | .ok d => d
  | .error e => errorDict url e

/-- Sequential branch of extract_batch (scraper.py lines 81-89): a loop
appending one outcome per URL; the `except` arm there is unreachable
because `_extract_single` already catches every exception. -/
def extractSeq (env : ScrapeEnv) (schema : List (String × String)) :
    List String → List JValue
  | [] => []
  | url :: rest => extractSingle env url schema :: extractSeq env schema rest

/-- WebScraper.extract_batch (scraper.py lines 53-89).  The parallel
branch gathers one task per URL in input order (`asyncio.gather`
preserves argument order); its exception-conversion arm is likewise
unreachable since `_extract_single` returns rather than raises. -/
def extractBatch (env : ScrapeEnv) (urls : List String)
    (schema : List (String × String)) (parallel : Bool) : List JValue :=
  if parallel then urls.map (fun url => extractSingle env url schema)
  else extractSeq env schema urls

/-- HTTP request as assembled by `_fetch_with_httpx`: target URL, header
list, redirect policy and timeout of the `httpx.AsyncClient`. -/
structure HttpRequest : Type where
  url : String
  headers : List (String × String)
  followRedirects : Bool
  timeoutSeconds : Nat
  deriving DecidableEq, Repr

/-- Final HTTP response (after redirect following): status code and body
text. -/
structure HttpResponse : Type where
  status : Nat
  text : String
  deriving DecidableEq, Repr

/-- Fixed browser-like User-Agent header value (scraper.py line 155). -/
def userAgent : String :=
  "Mozilla/5.0 (Macintosh; Intel Mac OS X 10_15_7) AppleWebKit/537.36"

/-- The one GET request `_fetch_with_httpx` issues (scraper.py
lines 151-157). -/
def httpxRequest (timeout : Nat) (url : String) : HttpRequest :=
  HttpRequest.mk url [("User-Agent", userAgent)] true timeout

/-- httpx `Response.is_success`: status in the 2xx range. -/
def isSuccessStatus (status : Nat) : Bool :=
  decide (200 ≤ status) && decide (status < 300)

/-- WebScraper._fetch_with_httpx (scraper.py lines 149-159), parameterised
by `send`, the outcome of `client.get` on a request (ok response, or the
transport exception it raised).  `raise_for_status` is embedded with the
httpx semantics: raise `HTTPStatusError` exactly when the final status is
not 2xx. -/
def fetchWithHttpx (send : HttpRequest → Except PyErr HttpResponse)
    (timeout : Nat) (url : String) : Except PyErr String :=
  match send (httpxRequest timeout url) with
  | .error e => .error e
  | .ok resp =>
    if isSuccessStatus resp.status then .ok resp.text
    else .error (.httpStatusError resp.status)

/-- Resources held during a `_fetch_with_browser` call: the playwright
driver started by `async with async_playwright()`, the launched chromium
browser, and its page. -/
inductive PwRes : Type where
  | driver : PwRes
  | browser : PwRes
  | page : PwRes
  deriving DecidableEq, Repr

/-- Actions of the body of `_fetch_with_browser` (scraper.py
lines 163-180), in source order. -/
inductive PwAct : Type where
  | launch : PwAct
  | newPage : PwAct
  | setHeaders : PwAct
  | goto : PwAct
  | waitTimeout : PwAct
  | content : PwAct
  | closeBrowser : PwAct
  deriving DecidableEq, Repr

/-- Exit paths of one `_fetch_with_browser` call: normal return, or an
exception raised by one of the awaited calls. -/
inductive BrowserOutcome : Type where
  | ok : BrowserOutcome
  | failLaunch : BrowserOutcome
  | failNewPage : BrowserOutcome
  | failHeaders : BrowserOutcome
  | failGoto : BrowserOutcome
  | failWait : BrowserOutcome
  | failContent : BrowserOutcome
  deriving DecidableEq, Repr

/-- Prefix of the body actually executed on each exit path (an exception
at an awaited call stops the body there; `browser.close()` on line 178
runs only on the normal path). -/
def bodyActs : BrowserOutcome → List PwAct
  | .failLaunch => []
  | .failNewPage => [.launch]
  | .failHeaders => [.launch, .newPage]
  | .failGoto => [.launch, .newPage, .setHeaders]
  | .failWait => [.launch, .newPage, .setHeaders, .goto]
  | .failContent => [.launch, .newPage, .setHeaders, .goto, .waitTimeout]
  | .ok => [.launch, .newPage, .setHeaders, .goto, .waitTimeout, .content, .closeBrowser]

/-- Effect of one body action on the set of open resources:
`chromium.launch` opens the browser, `browser.new_page()` opens the page,
`browser.close()` closes the browser and every page of it; the other
awaited calls hold no resource. -/
def actEffect (act : PwAct) (openRes : List PwRes) : List PwRes :=
  match act with
  | .launch => PwRes.browser :: openRes
  | .newPage => PwRes.page :: openRes
  | .closeBrowser => openRes.filter (fun r => r ≠ PwRes.browser && r ≠ PwRes.page)
  | _ => openRes

/-- Run the executed prefix of the body over the open-resource set. -/
def runBody : List PwAct → List PwRes → List PwRes
  | [], openRes => openRes
  | act :: rest, openRes => runBody rest (actEffect act openRes)

/-- Exiting `async with async_playwright()` calls `stop()`, which
terminates the driver and with it every browser and page it manages
(documented playwright semantics); this runs on every exit path, normal
or exceptional, because it is a scope-bound context manager. -/
def pwStop (openRes : List PwRes) : List PwRes :=
  openRes.filter (fun r =>
    r ≠ PwRes.driver && r ≠ PwRes.browser && r ≠ PwRes.page)

/-- Resources still open when `_fetch_with_browser` terminates along a
given exit path: the driver is opened on entry, the executed body prefix
runs, then the context-manager exit stops the driver. -/
def openAfterBrowserFetch (o : BrowserOutcome) : List PwRes :=
  pwStop (runBody (bodyActs o) [PwRes.driver])

/-- Closed set of schema type tags accepted by the loader
(schema.py line 34, written in source order). -/
def validTypes : List String := ["string", "number", "boolean", "array", "object"]

/-- Membership test `type_name in valid_types` of schema.py line 36: a
non-string JSON value is never equal to a member of a set of strings. -/
def isValidTypeTag : JValue → Bool
  | .str s => validTypes.contains s
  | _ => false

/-- Python `str(v)` rendering used in the f-string of the loader error
message; containers are abbreviated (no verified property depends on
their exact rendering). -/
def pyStr : JValue → String
  | .str s => s
  | .num n => toString n
  | .bool b => if b then "True" else "False"
  | .null => "None"
  | .arr _ => "[...]"
  | .obj _ => "\x7b...\x7d"

/-- Error message of schema.py lines 37-40.  Python joins a `set`, whose
iteration order is implementation-defined; the literal insertion order is
used here and no theorem relies on the joined tail. -/
def invalidTypeMsg (field : String) (tag : JValue) : String :=
  "Invalid type \x27" ++ pyStr tag ++ "\x27 for field \x27" ++ field ++
  "\x27. Must be one of: " ++ String.intercalate ", " validTypes

/-- Validation loop of schema.py lines 35-40: the first field whose value
is outside the closed tag set raises `ValueError`. -/
def checkFields : List (String × JValue) → Except PyErr Unit
  | [] => .ok ()
  | (field, tag) :: rest =>
    if isValidTypeTag tag then checkFields rest
    else .error (.valueError (invalidTypeMsg field tag))

/-- load_schema of schema.py lines 7-42, applied to the JSON value read
from the file (file existence and JSON decoding happen before this body
and are external I/O): reject a non-object top level, validate every
field tag, and return the mapping unchanged. -/
def loadSchema (v : JValue) : Except PyErr (List (String × JValue)) :=
  match v with
  | .obj fields =>
    match checkFields fields with
    | .ok _ => .ok fields
    | .error e => .error e
  | _ => .error (.valueError "Schema must be a JSON object (dictionary)")

/-- Per-task phases of one `_extract_single` pipeline while it holds a
semaphore slot (steps 1-4 of scraper.py lines 106-125). -/
inductive Phase : Type where
  | fetching : Phase
  | reducing : Phase
  | extracting : Phase
  | attaching : Phase
  deriving DecidableEq, Repr

/-- Next phase of the pipeline body. -/
def Phase.next : Phase → Phase
  | .fetching => .reducing
  | .reducing => .extracting
  | .extracting => .attaching
  | .attaching => .attaching

/-- Scheduling state of one URL task: not yet admitted by the semaphore,
running a phase inside the `async with self.semaphore` scope, or
terminated (slot released). -/
inductive TaskSt : Type where
  | pending : TaskSt
  | running (ph : Phase) : TaskSt
  | finished : TaskSt
  deriving DecidableEq, Repr

/-- Whether a task currently holds a semaphore slot. -/
def TaskSt.isRunning : TaskSt → Bool
  | .running _ => true
  | _ => false

/-- Number of simultaneously in-flight single-URL pipelines. -/
def inFlight (ts : List TaskSt) : Nat :=
  ts.countP TaskSt.isRunning

/-- Interleaving semantics of the batch under `asyncio.Semaphore(N)`
(scraper.py lines 45 and 106): a pending task may start fetching only
when a slot is free (`inFlight < N`); a running task may advance through
its phases; it terminates either normally (after attaching metadata) or
by an exception at any phase - both exits leave the `async with` scope
and release the slot, the `try`/`except` being inside that scope. -/
inductive BatchStep (N : Nat) : List TaskSt → List TaskSt → Prop where
  | start (ts : List TaskSt) (i : Nat) (h : ts.get? i = some .pending)
      (hgate : inFlight ts < N) :
      BatchStep N ts (ts.set i (.running .fetching))
  | advance (ts : List TaskSt) (i : Nat) (ph : Phase)
      (h : ts.get? i = some (.running ph)) :
      BatchStep N ts (ts.set i (.running ph.next))
  | finishOk (ts : List TaskSt) (i : Nat)
      (h : ts.get? i = some (.running .attaching)) :
      BatchStep N ts (ts.set i .finished)
  | finishErr (ts : List TaskSt) (i : Nat) (ph : Phase)
      (h : ts.get? i = some (.running ph)) :
      BatchStep N ts (ts.set i .finished)

/-- Reachability under the batch step relation. -/
inductive Reaches (N : Nat) : List TaskSt → List TaskSt → Prop where
  | refl (ts : List TaskSt) : Reaches N ts ts
  | step (ts₁ ts₂ ts₃ : List TaskSt) :
      Reaches N ts₁ ts₂ → BatchStep N ts₂ ts₃ → Reaches N ts₁ ts₃

/-- Initial batch state: one pending task per input URL. -/
def initTasks (k : Nat) : List TaskSt := List.replicate k .pending

/-- Concrete `json.loads` oracle for witnesses: two designated inputs
parse, everything else raises a decode error. -/
def jlStub : JsonLoads := fun s =>
  if s = "direct" then .ok (.obj [("a", .num 1)])
  else if s = "fixed" then .ok (.num 2)
  else .error "Expecting value: line 1 column 1 (char 0)"

/-- Concrete `repair_json` oracle for witnesses: repairs one designated
input, raises on the rest. -/
def rjStub : RepairJson := fun s => if s = "broken" then some "fixed" else none

/-- A `json.loads` oracle that always raises a decode error. -/
def jlFail : JsonLoads := fun _ => .error "Expecting value: line 1 column 1 (char 0)"

/-- A `repair_json` oracle that returns its input unchanged. -/
def rjId : RepairJson := fun s => some s

/-- Raw model reply containing a fenced JSON block whose contents do not
parse. -/
def rawFenced : String := "```json\nnot json\n```"

/-- Raw model reply with no recoverable JSON anywhere. -/
def rawNoJson : String := "no json here"

/-- Environment in which every stage succeeds and the model reply parses
to an object. -/
def envOk : ScrapeEnv :=
  ScrapeEnv.mk (fun _ => .ok "<p>hi</p>") id (fun _ => .ok "direct") jlStub rjStub

/-- Environment in which every fetch raises. -/
def envFail : ScrapeEnv :=
  ScrapeEnv.mk (fun _ => .error (.valueError "boom")) id (fun _ => .ok "direct") jlStub rjStub

/-- Environment in which the model reply parses to a top-level array. -/
def envArr : ScrapeEnv :=
  ScrapeEnv.mk (fun _ => .ok "h") id (fun _ => .ok "arr")
    (fun s => if s = "arr" then .ok (.arr []) else .error "no") (fun _ => none)

/-- Concrete transport oracle for witnesses: every request yields a 404. -/
def sendStub : HttpRequest → Except PyErr HttpResponse :=
  fun _ => .ok (HttpResponse.mk 404 "not found")

/-- A string one character over the context cap. -/
def bigContent : String := String.mk (List.replicate 50001 'a')

/-! Helper lemmas shared by the claim theorems. -/

theorem lookupFirst_insertKey_self (l : List (String × JValue)) (k : String) (v : JValue) :
    lookupFirst (insertKey l k v) k = some v := by
  induction l with
  | nil => simp [insertKey, lookupFirst]
  | cons p rest ih =>
    obtain ⟨k', v'⟩ := p
    by_cases h : k' = k
    · simp [insertKey, h, lookupFirst]
    · simp [insertKey, h, lookupFirst, ih]

theorem lookupFirst_insertKey_ne (l : List (String × JValue)) (k k' : String) (v : JValue)
    (h : k' ≠ k) :
    lookupFirst (insertKey l k v) k' = lookupFirst l k' := by
  induction l with
  | nil => simp [insertKey, lookupFirst, Ne.symm h]
  | cons p rest ih =>
    obtain ⟨k₀, v₀⟩ := p
    by_cases h0 : k₀ = k
    · subst h0; simp [insertKey, lookupFirst, Ne.symm h]
    · simp [insertKey, h0, lookupFirst, ih]

/-! Claims C5, C3, C4: content reducer cap and recovery parser. -/

/-- C5: reduced text at or under 50,000 characters passes downstream
unmodified; text over the cap is cut to exactly its first 50,000
characters with the fixed truncation marker appended. -/
theorem truncate_cap_spec (s : String) :
    (s.length ≤ contextCap → truncateContent s = s) ∧
    (contextCap < s.length →
      truncateContent s = s.take contextCap ++ truncationMarker) := by
  constructor
  · intro h
    unfold truncateContent
    rw [if_neg]
    omega
  · intro h
    unfold truncateContent
    rw [if_pos h]

/-- Witness for C5 at a short and at an over-cap input. -/
theorem truncate_cap_spec_witness :
    truncateContent "abc" = "abc" ∧
    truncateContent bigContent = bigContent.take contextCap ++ truncationMarker := by
  constructor
  · exact (truncate_cap_spec "abc").1 (by decide)
  · refine (truncate_cap_spec bigContent).2 ?_
    show contextCap < (List.replicate 50001 'a').length
    rw [List.length_replicate]
    norm_num [contextCap]

/-- C3: the recovery parser short-circuits in strict stage order: a raw
reply that parses directly yields the direct result with neither the
repair pass nor the fenced-block stage invoked (the outcome does not even
depend on the repair oracle); a reply that only parses after repair
yields the repaired result without the fenced stage; only when both fail
is the fenced stage reached. -/
theorem parser_short_circuit (jl : JsonLoads) (rj rj' : RepairJson) (raw : String) :
    (∀ d, jl raw = .ok d →
      parseResponseT jl rj raw = (.ok d, [Stage.direct]) ∧
      parseResponseT jl rj raw = parseResponseT jl rj' raw) ∧
    (∀ m r d, jl raw = .error m → rj raw = some r → jl r = .ok d →
      parseResponseT jl rj raw = (.ok d, [Stage.direct, Stage.repair])) ∧
    (∀ m, jl raw = .error m →
      (rj raw = none →
        parseResponseT jl rj raw = (stage3 jl raw, [Stage.direct, Stage.repair, Stage.fenced])) ∧
      (∀ r m', rj raw = some r → jl r = .error m' →
        parseResponseT jl rj raw = (stage3 jl raw, [Stage.direct, Stage.repair, Stage.fenced]))) := by
  refine ⟨fun d h => ?_, fun m r d h1 h2 h3 => ?_, fun m h1 => ⟨fun h2 => ?_, fun r m' h2 h3 => ?_⟩⟩
  · constructor <;> simp [parseResponseT, h]
  · simp [parseResponseT, h1, h2, h3]
  · simp [parseResponseT, h1, h2]
  · simp [parseResponseT, h1, h2, h3]

/-- Witness for C3: a directly-parsing reply (with two different repair
oracles) and a repair-recovered reply. -/
theorem parser_short_circuit_witness :
    parseResponseT jlStub rjStub "direct" = (.ok (.obj [("a", .num 1)]), [Stage.direct]) ∧
    parseResponseT jlStub rjStub "broken" = (.ok (.num 2), [Stage.direct, Stage.repair]) := by
  constructor
  · exact ((parser_short_circuit jlStub rjStub rjId "direct").1 _ rfl).1
  · exact (parser_short_circuit jlStub rjStub rjId "broken").2.1 _ "fixed" _ rfl rfl rfl

/-- Counterexample to C4 as stated: with every `json.loads` call failing
and `repair_json` the identity, a reply containing a fenced block whose
contents do not parse makes the parser raise the decode error from the
block parse, not the `ValueError` carrying the 200-character excerpt. -/
theorem parser_excerpt_cex :
    parseResponse jlFail rjId rawFenced =
      .error (.jsonDecodeError "Expecting value: line 1 column 1 (char 0)") ∧
    parseResponse jlFail rjId rawFenced ≠
      .error (.valueError ("Could not parse LLM response as JSON: " ++ rawFenced.take 200)) := by
  constructor
  · rfl
  · intro h
    rw [show parseResponse jlFail rjId rawFenced =
        .error (.jsonDecodeError "Expecting value: line 1 column 1 (char 0)") from rfl] at h
    simp at h

/-- C4 (amended): when the direct parse fails and the repair stage fails,
the parser raises the `ValueError` whose message holds the first 200
characters of the original text exactly when no fenced JSON block is
found; when a fenced block is found but its contents do not parse, the
decode error of the block parse propagates instead. -/
theorem parser_exhaustion_amended (jl : JsonLoads) (rj : RepairJson) (raw : String)
    (h1 : ∃ m, jl raw = .error m)
    (h2 : ∀ r, rj raw = some r → ∃ m, jl r = .error m) :
    (findFencedJson raw = none →
      parseResponse jl rj raw =
        .error (.valueError ("Could not parse LLM response as JSON: " ++ raw.take 200))) ∧
    (∀ b m, findFencedJson raw = some b → jl b = .error m →
      parseResponse jl rj raw = .error (.jsonDecodeError m)) := by
  obtain ⟨m0, hm0⟩ := h1
  have hs : parseResponse jl rj raw = stage3 jl raw := by
    unfold parseResponse parseResponseT
    rw [hm0]
    cases hr : rj raw with
    | none => rfl
    | some r =>
      obtain ⟨m1, hm1⟩ := h2 r hr
      simp [hm1]
  constructor
  · intro hf
    rw [hs]
    simp [stage3, hf]
  · intro b m hf hb
    rw [hs]
    simp [stage3, hf, hb]

/-- Witness for C4 (amended) at a reply with no recoverable JSON. -/
theorem parser_exhaustion_amended_witness :
    parseResponse jlFail rjId rawNoJson =
      .error (.valueError ("Could not parse LLM response as JSON: " ++ rawNoJson.take 200)) :=
  (parser_exhaustion_amended jlFail rjId rawNoJson ⟨_, rfl⟩ (fun _ _ => ⟨_, rfl⟩)).1 rfl

/-! Claims C1, C2, C10: orchestrator and its metadata attachment. -/

theorem runPipeline_ok_shape (env : ScrapeEnv) (url : String)
    (schema : List (String × String)) (d : JValue)
    (h : runPipeline env url schema = .ok d) :
    ∃ fields, d = .obj (insertKey (insertKey fields "url" (.str url))
      "source" (.str "uberscrape")) := by
  unfold runPipeline at h
  cases hf : env.fetch url <;> rw [hf] at h
  case error e => simp at h
  case ok html =>
  simp only [] at h
  cases hl : env.llm (buildExtractionPrompt schema (truncateContent (env.h2t html))) <;>
    rw [hl] at h
  case error e => simp at h
  case ok raw =>
  simp only [] at h
  cases hp : parseResponse env.jsonLoads env.repairJson raw <;> rw [hp] at h
  case error e => simp at h
  case ok data =>
  simp only [] at h
  cases data with
  | obj fields =>
    refine ⟨fields, ?_⟩
    simp [setItem] at h
    exact h.symm
  | null => simp [setItem] at h
  | bool b => simp [setItem] at h
  | num n => simp [setItem] at h
  | str s => simp [setItem] at h
  | arr l => simp [setItem] at h

theorem extractSingle_url_field (env : ScrapeEnv) (url : String)
    (schema : List (String × String)) :
    JValue.getField (extractSingle env url schema) "url" = some (.str url) := by
  unfold extractSingle
  cases hp : runPipeline env url schema with
  | error e => simp [errorDict, JValue.getField, lookupFirst]
  | ok d =>
    obtain ⟨fields, rfl⟩ := runPipeline_ok_shape env url schema d hp
    show lookupFirst (insertKey (insertKey fields "url" (.str url))
      "source" (.str "uberscrape")) "url" = some (.str url)
    rw [lookupFirst_insertKey_ne _ _ _ _ (by decide)]
    exact lookupFirst_insertKey_self fields "url" (.str url)

theorem extractSeq_eq_map (env : ScrapeEnv) (schema : List (String × String)) :
    ∀ urls : List String,
      extractSeq env schema urls = urls.map (fun u => extractSingle env u schema)
  | [] => rfl
  | u :: rest => by
    simp only [extractSeq, List.map, extractSeq_eq_map env schema rest]

theorem extractBatch_eq_map (env : ScrapeEnv) (urls : List String)
    (schema : List (String × String)) (parallel : Bool) :
    extractBatch env urls schema parallel =
      urls.map (fun u => extractSingle env u schema) := by
  cases parallel with
  | true => rfl
  | false => simp [extractBatch, extractSeq_eq_map]

/-- C1: for every environment, URL list, schema and mode, extract_batch
returns exactly one outcome per input URL, and the outcome at index i
carries the i-th input URL in its url field. -/
theorem extract_batch_length_and_order (env : ScrapeEnv) (urls : List String)
    (schema : List (String × String)) (parallel : Bool) :
    (extractBatch env urls schema parallel).length = urls.length ∧
    ∀ i u, urls.get? i = some u →
      ∃ out, (extractBatch env urls schema parallel).get? i = some out ∧
        JValue.getField out "url" = some (.str u) := by
  constructor
  · rw [extractBatch_eq_map]
    exact List.length_map urls _
  · intro i u hu
    refine ⟨extractSingle env u schema, ?_, extractSingle_url_field env u schema⟩
    rw [extractBatch_eq_map, List.get?_map, hu]
    rfl

/-- Witness for C1 at a two-URL batch in a fully successful environment. -/
theorem extract_batch_length_and_order_witness :
    (extractBatch envOk ["a", "b"] [("t", "string")] true).length = 2 ∧
    ∃ out, (extractBatch envOk ["a", "b"] [("t", "string")] true).get? 1 = some out ∧
      JValue.getField out "url" = some (.str "b") :=
  ⟨(extract_batch_length_and_order envOk ["a", "b"] [("t", "string")] true).1,
   (extract_batch_length_and_order envOk ["a", "b"] [("t", "string")] true).2 1 "b" rfl⟩

/-- C2: an exception at any stage of one URL pipeline is converted at the
single-URL boundary into the failure dict carrying that URL and the error
message, and each input URL receives its own outcome computed
independently of every other URL, so no failure aborts sibling URLs. -/
theorem extract_single_isolates_failures (env : ScrapeEnv) (url : String)
    (schema : List (String × String)) :
    (∀ e, runPipeline env url schema = .error e →
      extractSingle env url schema =
        .obj [("url", .str url), ("error", .str e.msg), ("parse_error", .bool true)]) ∧
    (∀ (urls : List String) (parallel : Bool),
      extractBatch env urls schema parallel =
        urls.map (fun u => extractSingle env u schema)) := by
  refine ⟨fun e he => ?_, fun urls parallel => extractBatch_eq_map env urls schema parallel⟩
  simp [extractSingle, he, errorDict]

/-- Witness for C2: a batch whose fetches all raise still yields one
failure dict per URL, with the error message attached. -/
theorem extract_single_isolates_failures_witness :
    extractSingle envFail "u1" [] =
      .obj [("url", .str "u1"), ("error", .str "boom"), ("parse_error", .bool true)] ∧
    extractBatch envFail ["u1", "u2"] [] true =
      ["u1", "u2"].map (fun u => extractSingle envFail u []) :=
  ⟨(extract_single_isolates_failures envFail "u1" []).1 (.valueError "boom") rfl,
   (extract_single_isolates_failures envFail "u1" []).2 ["u1", "u2"] true⟩

/-- C10: when the recovered JSON value is not an object, attaching the
url metadata raises a TypeError, so the single-URL pipeline yields the
failure dict; and every successful outcome is an object carrying the
input url and the fixed provenance tag. -/
theorem success_requires_mapping (env : ScrapeEnv) (url : String)
    (schema : List (String × String)) :
    (∀ html raw data,
      env.fetch url = .ok html →
      env.llm (buildExtractionPrompt schema (truncateContent (env.h2t html))) = .ok raw →
      parseResponse env.jsonLoads env.repairJson raw = .ok data →
      (∀ fields, data ≠ .obj fields) →
      extractSingle env url schema = errorDict url (.typeError (setItemErrMsg data))) ∧
    (∀ d, runPipeline env url schema = .ok d →
      ∃ fields, d = .obj fields ∧
        JValue.getField d "url" = some (.str url) ∧
        JValue.getField d "source" = some (.str "uberscrape")) := by
  constructor
  · intro html raw data hf hl hp hno
    have hset : setItem data "url" (.str url) = .error (.typeError (setItemErrMsg data)) := by
      cases data with
      | obj fields => exact absurd rfl (hno fields)
      | null => rfl
      | bool b => rfl
      | num n => rfl
      | str s => rfl
      | arr l => rfl
    unfold extractSingle runPipeline
    rw [hf]
    simp only []
    rw [hl]
    simp only []
    rw [hp]
    simp only []
    rw [hset]
  · intro d hd
    obtain ⟨fields, rfl⟩ := runPipeline_ok_shape env url schema d hd
    refine ⟨insertKey (insertKey fields "url" (.str url)) "source" (.str "uberscrape"),
      rfl, ?_, ?_⟩
    · show lookupFirst (insertKey (insertKey fields "url" (.str url))
        "source" (.str "uberscrape")) "url" = some (.str url)
      rw [lookupFirst_insertKey_ne _ _ _ _ (by decide)]
      exact lookupFirst_insertKey_self fields "url" (.str url)
    · exact lookupFirst_insertKey_self _ "source" (.str "uberscrape")

/-- Witness for C10: a model reply parsing to a top-level array yields
the failure dict, and a successful run yields an object with url and
provenance fields. -/
theorem success_requires_mapping_witness :
    extractSingle envArr "u" [] = errorDict "u" (.typeError (setItemErrMsg (.arr []))) ∧
    ∃ fields, extractSingle envOk "a" [] = .obj fields ∧
      JValue.getField (extractSingle envOk "a" []) "url" = some (.str "a") ∧
      JValue.getField (extractSingle envOk "a" []) "source" = some (.str "uberscrape") := by
  constructor
  · exact (success_requires_mapping envArr "u" []).1 "h" "arr" (.arr []) rfl rfl rfl
      (fun fields h => by simp at h)
  · obtain ⟨fields, hf, hu, hs⟩ :=
      (success_requires_mapping envOk "a" []).2 (extractSingle envOk "a" []) rfl
    exact ⟨fields, hf, hu, hs⟩

/-! Claim C6: the admission gate bounds in-flight pipelines. -/

theorem countP_set_aux (p : TaskSt → Bool) :
    ∀ (l : List TaskSt) (i : Nat) (x y : TaskSt), l.get? i = some x →
      (l.set i y).countP p + (if p x then 1 else 0) =
        l.countP p + (if p y then 1 else 0) := by
  intro l
  induction l with
  | nil => intro i x y h; simp at h
  | cons a rest ih =>
    intro i x y h
    cases i with
    | zero =>
      simp only [List.get?] at h
      obtain rfl : a = x := by injection h
      simp [List.set, List.countP_cons]
      omega
    | succ n =>
      simp only [List.get?] at h
      have := ih n x y h
      simp [List.set, List.countP_cons]
      omega

theorem inFlight_initTasks (k : Nat) : inFlight (initTasks k) = 0 := by
  induction k with
  | zero => rfl
  | succ n ih =>
    show inFlight (.pending :: initTasks n) = 0
    simp [inFlight, List.countP_cons, TaskSt.isRunning] at *
    exact ih

/-- C6: in every state reachable from the initial batch state under the
semaphore-gated step relation, at most N single-URL pipelines are in
flight: a pipeline only starts fetching after acquiring a free slot, and
both the normal and the exceptional exit release the slot. -/
theorem concurrency_gate_bound (N k : Nat) (ts : List TaskSt)
    (h : Reaches N (initTasks k) ts) : inFlight ts ≤ N := by
  induction h with
  | refl => rw [inFlight_initTasks]; exact Nat.zero_le N
  | step ts₂ ts₃ hreach hstep ih =>
    cases hstep with
    | start i hi hgate =>
      have hc := countP_set_aux TaskSt.isRunning ts₂ i .pending (.running .fetching) hi
      simp [TaskSt.isRunning] at hc
      unfold inFlight at *
      omega
    | advance i ph hi =>
      have hc := countP_set_aux TaskSt.isRunning ts₂ i (.running ph) (.running ph.next) hi
      simp [TaskSt.isRunning] at hc
      unfold inFlight at *
      omega
    | finishOk i hi =>
      have hc := countP_set_aux TaskSt.isRunning ts₂ i (.running .attaching) .finished hi
      simp [TaskSt.isRunning] at hc
      unfold inFlight at *
      omega
    | finishErr i ph hi =>
      have hc := countP_set_aux TaskSt.isRunning ts₂ i (.running ph) .finished hi
      simp [TaskSt.isRunning] at hc
      unfold inFlight at *
      omega

/-- Witness for C6: from a three-URL batch under a gate of size 2, one
admission step stays within the bound. -/
theorem concurrency_gate_bound_witness :
    inFlight ((initTasks 3).set 0 (.running .fetching)) ≤ 2 :=
  concurrency_gate_bound 2 3 _
    (Reaches.step _ _ _ (Reaches.refl _)
      (BatchStep.start (initTasks 3) 0 (by decide) (by decide)))

/-! Claim C7: the lightweight fetcher. -/

/-- C7: the lightweight fetch issues a single GET carrying the fixed
browser-like User-Agent header with redirect following on; it depends on
the transport only through that one request; a 2xx final response yields
its body, any non-2xx final status raises the status error carrying the
status, and a transport exception propagates. -/
theorem httpx_fetch_spec (send send' : HttpRequest → Except PyErr HttpResponse)
    (timeout : Nat) (url : String) :
    (httpxRequest timeout url).headers = [("User-Agent", userAgent)] ∧
    (httpxRequest timeout url).followRedirects = true ∧
    (∀ n : Nat, isSuccessStatus n = true ↔ 200 ≤ n ∧ n < 300) ∧
    (∀ resp, send (httpxRequest timeout url) = .ok resp →
      (isSuccessStatus resp.status = true →
        fetchWithHttpx send timeout url = .ok resp.text) ∧
      (isSuccessStatus resp.status = false →
        fetchWithHttpx send timeout url = .error (.httpStatusError resp.status))) ∧
    (∀ e, send (httpxRequest timeout url) = .error e →
      fetchWithHttpx send timeout url = .error e) ∧
    (send (httpxRequest timeout url) = send' (httpxRequest timeout url) →
      fetchWithHttpx send timeout url = fetchWithHttpx send' timeout url) := by
  refine ⟨rfl, rfl, ?_, fun resp hr => ⟨fun hs => ?_, fun hs => ?_⟩,
    fun e he => ?_, fun hsame => ?_⟩
  · intro n
    simp [isSuccessStatus]
  · simp [fetchWithHttpx, hr, hs]
  · simp [fetchWithHttpx, hr, hs]
  · simp [fetchWithHttpx, he]
  · unfold fetchWithHttpx
    rw [hsame]

/-- Witness for C7 at a transport answering 404. -/
theorem httpx_fetch_spec_witness :
    fetchWithHttpx sendStub 30 "http://example.com" = .error (.httpStatusError 404) :=
  ((httpx_fetch_spec sendStub sendStub 30 "http://example.com").2.2.2.1
    (HttpResponse.mk 404 "not found") rfl).2 (by decide)

/-! Claim C8: browser teardown on every exit path. -/

/-- C8: on every exit path of a rendered-mode fetch - normal return, or
an exception at launch, page creation, header setting, navigation, the
settle wait, or DOM capture - no browser resource remains open when the
call terminates; on the normal path the browser is additionally closed
explicitly before the scope exit. -/
theorem browser_fetch_cleanup :
    (∀ o : BrowserOutcome, openAfterBrowserFetch o = []) ∧
    PwAct.closeBrowser ∈ bodyActs BrowserOutcome.ok := by
  constructor
  · intro o
    cases o <;> rfl
  · decide

/-! Claim C9: schema loading. -/

theorem checkFields_ok (fields : List (String × JValue))
    (h : ∀ p ∈ fields, isValidTypeTag p.2 = true) :
    checkFields fields = .ok () := by
  induction fields with
  | nil => rfl
  | cons p rest ih =>
    obtain ⟨f, t⟩ := p
    have ht : isValidTypeTag t = true := h (f, t) (List.mem_cons_self _ _)
    simp [checkFields, ht]
    exact ih (fun q hq => h q (List.mem_cons_of_mem _ hq))

theorem checkFields_error (fields : List (String × JValue))
    (h : ∃ p ∈ fields, isValidTypeTag p.2 = false) :
    ∃ m, checkFields fields = .error (.valueError m) := by
  induction fields with
  | nil => obtain ⟨p, hp, _⟩ := h; simp at hp
  | cons q rest ih =>
    obtain ⟨f, t⟩ := q
    by_cases ht : isValidTypeTag t = true
    · obtain ⟨p, hp, hpf⟩ := h
      rcases List.mem_cons.mp hp with heq | hmem
      · subst heq; rw [ht] at hpf; cases hpf
      · obtain ⟨m, hm⟩ := ih ⟨p, hmem, hpf⟩
        exact ⟨m, by simp [checkFields, ht, hm]⟩
    · refine ⟨invalidTypeMsg f t, ?_⟩
      simp [checkFields, ht]

/-- C9: the loader raises on a non-object top level, raises on any field
whose value is outside the closed tag set, and returns any fully tagged
object unchanged. -/
theorem load_schema_spec (v : JValue) :
    ((∀ fields, v ≠ .obj fields) →
      loadSchema v = .error (.valueError "Schema must be a JSON object (dictionary)")) ∧
    (∀ fields, v = .obj fields →
      ((∀ p ∈ fields, isValidTypeTag p.2 = true) → loadSchema v = .ok fields) ∧
      ((∃ p ∈ fields, isValidTypeTag p.2 = false) →
        ∃ m, loadSchema v = .error (.valueError m))) := by
  constructor
  · intro hno
    cases v with
    | obj fields => exact absurd rfl (hno fields)
    | null => rfl
    | bool b => rfl
    | num n => rfl
    | str s => rfl
    | arr l => rfl
  · rintro fields rfl
    constructor
    · intro hall
      simp [loadSchema, checkFields_ok fields hall]
    · intro hbad
      obtain ⟨m, hm⟩ := checkFields_error fields hbad
      exact ⟨m, by simp [loadSchema, hm]⟩

/-- Witness for C9: the spec test instances `price : money` (rejected)
and `price : number` (round-trips), plus a non-object top level. -/
theorem load_schema_spec_witness :
    (∃ m, loadSchema (.obj [("price", .str "money")]) = .error (.valueError m)) ∧
    loadSchema (.obj [("price", .str "number")]) = .ok [("price", .str "number")] ∧
    loadSchema (.arr []) =
      .error (.valueError "Schema must be a JSON object (dictionary)") := by
  refine ⟨?_, ?_, ?_⟩
  · exact ((load_schema_spec _).2 _ rfl).2
      ⟨("price", .str "money"), List.mem_cons_self _ _, rfl⟩
  · exact ((load_schema_spec _).2 _ rfl).1 (by
      intro p hp
      rcases List.mem_cons.mp hp with hq | hq
      · subst hq; rfl
      · simp at hq)
  · exact (load_schema_spec (.arr [])).1 (fun fields h => by simp at h)

end Uberscrape
